import Mathlib

/-!
Verification model of the metrics analysis engine of the
Social_media_mental_health_tracker repository.

The definitions below are a shallow embedding of
`backend/src/utils/analysisEngine.js` (which contains two concatenated
modules: the scoring module exporting `calculateInterestScore`,
`calculateStressScore`, ..., and the analysis module with `analyzeMetrics`,
`detectRiskFactors` and the result cache) and of the route-helper scoring
variant found in the unnamed routes file (`src/unnamed/part_001`).

Modelling conventions:
* JS numbers are modelled as rationals (`ℚ`); the engine performs only
  `+ - * / min max` on them, all exact here.
* Texts are `List Char`; `String` is used where the code builds keys.
* JS `Date` values are modelled as epoch-millisecond integers (`Int`);
  a `Date` object is always truthy.
* Fallible record fields (`metrics`, `sentiment?.score`, option dates)
  are `Option`s.
* The trend series and the narrative summary objects are deterministic
  functions of the same inputs whose construction depends on local-timezone
  calendar rendering (`toDateString`); they are not part of the modelled
  result projection.  No property below depends on them.
-/

/-- Severity tier of a single risk finding, as in `detectRiskFactors`. -/
inductive Severity where
  | none
  | low
  | medium
  | high
deriving DecidableEq

/-- Overall risk level of a batch, as in `detectRiskFactors`. -/
inductive RiskLevel where
  | none
  | low
  | lowMedium
  | medium
  | mediumHigh
  | high
deriving DecidableEq

/-- High-severity keyword list of `detectRiskFactors` (`RISK_KEYWORDS.high`). -/
def highKeywords : List (List Char) :=
  [ "suicide".data, "kill myself".data, "end my life".data, "suicidal".data,
    "self-harm".data, "self harm".data, "cutting".data, "want to die".data ]

/-- Medium-severity keyword list of `detectRiskFactors` (`RISK_KEYWORDS.medium`). -/
def mediumKeywords : List (List Char) :=
  [ "hopeless".data, "can\x27t go on".data, "tired of life".data,
    "no reason to live".data, "give up".data ]

/-- Low-severity keyword list of `detectRiskFactors` (`RISK_KEYWORDS.low`). -/
def lowKeywords : List (List Char) :=
  [ "depressed".data, "anxious".data, "overwhelmed".data, "lonely".data,
    "alone".data, "nobody cares".data, "no one cares".data, "worthless".data,
    "useless".data, "failure".data, "hate myself".data,
    "disappointed in myself".data ]

/-- The flat `RISK_KEYWORDS` list of the scoring module (used by
`calculateStressScore` through single-token membership). -/
def riskKeywordsFlat : List (List Char) :=
  [ "suicide".data, "kill myself".data, "end my life".data, "hopeless".data,
    "don\x27t want to live".data,
    "depressed".data, "anxious".data, "overwhelmed".data, "can\x27t go on".data,
    "tired of life".data,
    "self-harm".data, "self harm".data, "cutting".data, "suicidal".data,
    "want to die".data,
    "lonely".data, "alone".data, "nobody cares".data, "no one cares".data,
    "worthless".data,
    "useless".data, "failure".data, "hate myself".data,
    "disappointed in myself".data ]

/-- JS regex word character (`\w`, i.e. `[A-Za-z0-9_]`). -/
def isWordChar (c : Char) : Bool :=
  c.isAlphanum || c == '_'

/-- The pattern `\b(kw)\b` matches text `t` at position `i`.  Every keyword
begins and ends with a word character, so the two `\b` anchors amount to: the
preceding character (if any) is not a word character, and the following
character (if any) is not a word character. -/
def matchAt (t : List Char) (i : Nat) (kw : List Char) : Bool :=
  kw.isPrefixOf (t.drop i)
  && (i == 0 || !isWordChar (t.getD (i - 1) ' '))
  && (decide (t.length ≤ i + kw.length) || !isWordChar (t.getD (i + kw.length) ' '))

/-- The pattern `\b(kw)\b` matches somewhere in `t`. -/
def hasKeyword (t : List Char) (kw : List Char) : Bool :=
  (List.range (t.length + 1)).any (fun i => matchAt t i kw)

/-- Some keyword of the tier matches in `t`
(`text.match(riskPatterns.tier)` is non-null). -/
def tierHit (t : List Char) (kws : List (List Char)) : Bool :=
  kws.any (fun kw => hasKeyword t kw)

/-- The deduplicated matched keywords of a tier
(`[...new Set(text.match(pattern))]`; the set of matched substrings equals the
set of keywords with at least one whole-word occurrence, listed here in
keyword-list order). -/
def tierMatchList (t : List Char) (kws : List (List Char)) : List (List Char) :=
  kws.filter (fun kw => hasKeyword t kw)

/-- `text.toLowerCase()`. -/
def lowerStr (t : List Char) : List Char :=
  t.map Char.toLower

/-- Severity assigned to one (lowercased) text: high checked first, medium
only if no high match, low only if no higher match. -/
def classifySeverity (t : List Char) : Severity :=
  if tierHit t highKeywords then Severity.high
  else if tierHit t mediumKeywords then Severity.medium
  else if tierHit t lowKeywords then Severity.low
  else Severity.none

/-- `allMatches = [...matches.high, ...matches.medium, ...matches.low]`; only
the tier that set the severity is non-empty. -/
def matchesFor (t : List Char) : List (List Char) :=
  match classifySeverity t with
  | Severity.high => tierMatchList t highKeywords
  | Severity.medium => tierMatchList t mediumKeywords
  | Severity.low => tierMatchList t lowKeywords
  | Severity.none => []

/-- Excerpt stored in a finding:
`text.length > 200 ? text.substring(0, 200) + "..." : text`. -/
def excerptOf (t : List Char) : List Char :=
  if 200 < t.length then t.take 200 ++ "...".data else t

/-- One post-engagement record of the analysed batch.  `metricsOpt` is the
possibly missing `metrics` object; a missing or empty `text` is the empty
list (both are falsy and make the risk loop skip the record).  The context
snippets of a finding are a further deterministic function of text and
matches and are not part of the modelled projection. -/
structure Metrics where
  likes : ℚ
  comments : ℚ
  shares : ℚ
  saves : ℚ
  views : ℚ
  watchTimeSeconds : ℚ
  sentimentScore : Option ℚ
deriving DecidableEq

structure Record where
  id : String
  provider : String
  timestamp : Int
  text : List Char
  metricsOpt : Option Metrics
deriving DecidableEq

/-- A RiskFinding as pushed onto `riskPosts`. -/
structure Finding where
  id : String
  excerpt : List Char
  timestamp : Int
  matchedKeywords : List (List Char)
  severity : Severity
deriving DecidableEq

/-- The finding emitted for a record whose text matched some tier. -/
def mkFinding (m : Record) : Finding :=
  { id := m.id
    excerpt := excerptOf m.text
    timestamp := m.timestamp
    matchedKeywords := matchesFor (lowerStr m.text)
    severity := classifySeverity (lowerStr m.text) }

/-- The main loop of `detectRiskFactors`: `seen` is the `processedTexts`
set (texts are added to it only when a finding was emitted, exactly as in
the source). -/
def riskLoop : List Record → List (List Char) → List Finding
  | [], _ => []
  | m :: rest, seen =>
    if m.text = [] ∨ m.text ∈ seen then riskLoop rest seen
    else if classifySeverity (lowerStr m.text) = Severity.none then riskLoop rest seen
    else mkFinding m :: riskLoop rest (m.text :: seen)

/-- The `riskPosts` list accumulated by `detectRiskFactors`. -/
def riskPosts (records : List Record) : List Finding :=
  riskLoop records []

/-- `severityOrder` used when ranking example findings. -/
def sevRank : Severity → Nat
  | Severity.high => 3
  | Severity.medium => 2
  | Severity.low => 1
  | Severity.none => 0

/-- Strict comparator of the example ranking: higher severity first, then
more matches, then more recent. -/
def exampleBefore (f g : Finding) : Bool :=
  if sevRank f.severity ≠ sevRank g.severity then
    decide (sevRank g.severity < sevRank f.severity)
  else if f.matchedKeywords.length ≠ g.matchedKeywords.length then
    decide (g.matchedKeywords.length < f.matchedKeywords.length)
  else
    decide (g.timestamp < f.timestamp)

/-- Stable sort modelling the (stable) JS `Array.prototype.sort` with the
example comparator. -/
def insertSorted (x : Finding) : List Finding → List Finding
  | [] => [x]
  | y :: ys => if exampleBefore y x then y :: insertSorted x ys else x :: y :: ys

def sortFindings : List Finding → List Finding
  | [] => []
  | x :: xs => insertSorted x (sortFindings xs)

/-- The overall risk level chain of `detectRiskFactors` (lines 850-862). -/
def overallRiskLevel (h m l : Nat) : RiskLevel :=
  if 0 < h then RiskLevel.high
  else if 3 ≤ m then RiskLevel.mediumHigh
  else if 0 < m then RiskLevel.medium
  else if 5 ≤ l then RiskLevel.lowMedium
  else if 0 < l then RiskLevel.low
  else RiskLevel.none

/-- The aggregated risk report.  The empty-batch early return of the source
carries no `riskScore` field, so `riskScore` is an `Option`. -/
structure RiskReport where
  total : Nat
  highRisk : Nat
  mediumRisk : Nat
  lowRisk : Nat
  riskLevel : RiskLevel
  riskScore : Option Nat
  examples : List Finding
deriving DecidableEq

/-- `detectRiskFactors(metrics)`. -/
def detectRiskFactors (records : List Record) : RiskReport :=
  if records = [] then
    { total := 0, highRisk := 0, mediumRisk := 0, lowRisk := 0,
      riskLevel := RiskLevel.none, riskScore := Option.none, examples := [] }
  else
    let posts := riskPosts records
    let h := (posts.filter (fun p => p.severity == Severity.high)).length
    let m := (posts.filter (fun p => p.severity == Severity.medium)).length
    let l := (posts.filter (fun p => p.severity == Severity.low)).length
    { total := posts.length
      highRisk := h
      mediumRisk := m
      lowRisk := l
      riskLevel := overallRiskLevel h m l
      riskScore := Option.some (Nat.min (h * 10 + m * 3 + l * 1) 100)
      examples := (sortFindings posts).take 5 }

/-- `calculateInterestScore` of the scoring module (lines 58-83): fixed
saturation caps likes/100, comments/10, shares/5, saves/20, watchTime/300,
weights 0.4/0.3/0.2/0.1/0.2, scaled to 100 and clamped to [0,100]. -/
def calculateInterestScore (likes comments shares saves watchTime : ℚ) : ℚ :=
  let normalizedLikes := min (likes / 100) 1
  let normalizedComments := min (comments / 10) 1
  let normalizedShares := min (shares / 5) 1
  let normalizedSaves := min (saves / 20) 1
  let normalizedWatchTime := min (watchTime / 300) 1
  let score :=
    (normalizedLikes * 0.4 + normalizedComments * 0.3 + normalizedShares * 0.2 +
      normalizedSaves * 0.1 + normalizedWatchTime * 0.2) * 100
  min (max score 0) 100

/-- JS whitespace test for the `\s` class (ASCII portion, the only one the
fixed keyword lists and these texts exercise). -/
def isWS (c : Char) : Bool :=
  c == ' ' || c == '\t' || c == '\n' || c == '\r'

/-- `text.split(/\s+/)`: fields between maximal whitespace runs; a leading or
trailing run contributes an empty field, and the empty text yields one empty
field. -/
def splitWSgo : List Char → List Char → Bool → List (List Char)
  | [], cur, _ => [cur.reverse]
  | c :: rest, cur, inWS =>
    if isWS c then
      if inWS then splitWSgo rest [] true
      else cur.reverse :: splitWSgo rest [] true
    else splitWSgo rest (c :: cur) false

def jsSplitWS (t : List Char) : List (List Char) :=
  splitWSgo t [] false

/-- Tokens of the lowercased post that are literally members of the flat
`RISK_KEYWORDS` list (`words.filter(word => RISK_KEYWORDS.includes(word))`). -/
def riskWordCountOf (post : List Char) : Nat :=
  ((jsSplitWS (lowerStr post)).filter (fun w => w ∈ riskKeywordsFlat)).length

/-- `calculateStressScore` of the scoring module (lines 94-139). -/
def calculateStressScore (sentiment negativePercentage postFrequency : ℚ)
    (posts : List (List Char)) : ℚ :=
  let normalizedSentiment := (sentiment + 1) / 2
  let negativeContentScore := negativePercentage / 100
  let normalizedPostFrequency := min (postFrequency / 10) 1
  let riskKeywordDensity :=
    if posts.length > 0 then
      let totalWords := ((posts.map (fun p => (jsSplitWS p).length)).sum : ℚ)
      if totalWords > 0 then
        min (((posts.map riskWordCountOf).sum : ℚ) / totalWords) 1
      else 0
    else 0
  let stressScore :=
    ((1 - normalizedSentiment) * 0.6 + negativeContentScore * 0.2 +
      normalizedPostFrequency * 0.2 + riskKeywordDensity * 0.3) * 100
  min (max stressScore 0) 100

/-- `calculateEnergyLevel` (line 726-728). -/
def calculateEnergyLevel (interestScore : ℚ) : ℚ :=
  min 100 (max 0 (50 + (interestScore - 50) * 0.5))

/-- `calculateSocialSupport` (line 730-732). -/
def calculateSocialSupport (comments : ℚ) : ℚ :=
  min 100 (max 0 (50 + comments * 0.1))

/-- `calculateEngagementRate` (line 722-724). -/
def calculateEngagementRate (likes comments shares : ℚ) (totalPosts : Nat) : ℚ :=
  if 0 < totalPosts then (likes + comments + shares) / totalPosts else 0

/-- The `metrics` object of a validated record (`m.metrics[field] || 0`
semantics for each numeric field; after validation the object is present). -/
def Record.mtr (m : Record) : Metrics :=
  m.metricsOpt.getD { likes := 0, comments := 0, shares := 0, saves := 0,
                      views := 0, watchTimeSeconds := 0,
                      sentimentScore := Option.none }

/-- `sumMetric(metrics, field)`. -/
def sumLikes (records : List Record) : ℚ := (records.map (fun m => m.mtr.likes)).sum
def sumComments (records : List Record) : ℚ := (records.map (fun m => m.mtr.comments)).sum
def sumShares (records : List Record) : ℚ := (records.map (fun m => m.mtr.shares)).sum
def sumSaves (records : List Record) : ℚ := (records.map (fun m => m.mtr.saves)).sum
def sumWatchTime (records : List Record) : ℚ :=
  (records.map (fun m => m.mtr.watchTimeSeconds)).sum

structure SentimentMetrics where
  avgSentiment : ℚ
  positive : ℚ
  negative : ℚ
  neutral : ℚ
deriving DecidableEq

/-- `calculateSentimentMetrics` (lines 609-633): per-record
`m.metrics.sentiment?.score ?? 0`; the `filter` against null/NaN keeps every
element of the model. -/
def calculateSentimentMetrics (records : List Record) : SentimentMetrics :=
  let scores := records.map (fun m => (m.mtr.sentimentScore).getD 0)
  if scores = [] then
    { avgSentiment := 0, positive := 0, negative := 0, neutral := 100 }
  else
    let n : ℚ := scores.length
    let avgSentiment := scores.sum / n
    let positive := ((scores.filter (fun s => 0.1 < s)).length : ℚ) / n * 100
    let negative := ((scores.filter (fun s => s < -0.1)).length : ℚ) / n * 100
    { avgSentiment := avgSentiment, positive := positive, negative := negative,
      neutral := 100 - positive - negative }

/-- Analysis options: `timeRange` is the raw string (undefined when the
caller omitted it; `processMetrics` then defaults it to 30d), the dates are
epoch-millisecond instants. -/
structure Options where
  timeRange : Option String
  startDate : Option Int
  endDate : Option Int
deriving DecidableEq

/-- `parseInt(timeRange) || 30`: leading decimal digits of the string, with
30 for a digit-free string (NaN) and for a zero value (falsy). -/
def parseIntOr30 (s : String) : ℚ :=
  let ds := s.data.takeWhile Char.isDigit
  if ds = [] then 30
  else
    let v := ds.foldl (fun acc c => acc * 10 + (c.toNat - '0'.toNat)) 0
    if v = 0 then 30 else (v : ℚ)

/-- `calculatePostFrequency` (lines 635-641); `tr` is the already defaulted
time-range string. -/
def calculatePostFrequency (records : List Record) (tr : String)
    (startDate endDate : Option Int) : ℚ :=
  match startDate, endDate with
  | Option.some s, Option.some e =>
    if tr = "custom" then
      let days : ℚ := ((e - s : Int) : ℚ) / (1000 * 60 * 60 * 24)
      (records.length : ℚ) / max 1 days
    else (records.length : ℚ) / parseIntOr30 tr
  | _, _ => (records.length : ℚ) / parseIntOr30 tr

/-- One element of the per-platform breakdown (`generatePlatformData`). -/
structure PlatformEntry where
  platform : String
  postCount : Nat
  likes : ℚ
  comments : ℚ
  shares : ℚ
  avgLikes : ℚ
  avgComments : ℚ
  avgShares : ℚ
  sentiment : ℚ
deriving DecidableEq

/-- Providers in first-appearance order (the key order of the reduce
accumulator object). -/
def providersIn (records : List Record) : List String :=
  records.foldl (fun acc m => if m.provider ∈ acc then acc else acc ++ [m.provider]) []

/-- `generatePlatformData` (lines 643-678); the per-record sentiment
contribution is `m.metrics.sentiment?.score || 0`. -/
def platformEntry (records : List Record) (p : String) : PlatformEntry :=
  let group := records.filter (fun m => m.provider = p)
  let cnt : ℚ := group.length
  let likes := sumLikes group
  let comments := sumComments group
  let shares := sumShares group
  { platform := p, postCount := group.length,
    likes := likes, comments := comments, shares := shares,
    avgLikes := likes / cnt, avgComments := comments / cnt,
    avgShares := shares / cnt,
    sentiment := ((group.map (fun m => (m.mtr.sentimentScore).getD 0)).sum) / cnt }

def generatePlatformData (records : List Record) : List PlatformEntry :=
  (providersIn records).map (platformEntry records)

structure Engagement where
  totalPosts : Nat
  totalLikes : ℚ
  totalComments : ℚ
  totalShares : ℚ
  totalSaves : ℚ
  totalWatchTime : ℚ
  avgLikes : ℚ
  avgComments : ℚ
  avgShares : ℚ
  avgSaves : ℚ
  avgWatchTime : ℚ
  engagementRate : ℚ
deriving DecidableEq

structure MentalHealth where
  interestScore : ℚ
  stressScore : ℚ
  moodScore : ℚ
  energyLevel : ℚ
  socialSupport : ℚ
deriving DecidableEq

/-- The modelled projection of the assembled analysis object (trend series
and narrative summary excluded, see the header note). -/
structure AnalysisData where
  engagement : Engagement
  sentiment : SentimentMetrics
  comparative : ℚ
  mentalHealth : MentalHealth
  riskFactors : RiskReport
  byPlatform : List PlatformEntry
deriving DecidableEq

/-- `processMetrics(metrics, options)` (lines 515-592).

The source computes `interestScore = calculateInterestScore(averages)`, but
`averages` carries the keys `avgLikes`/`avgComments`/`avgShares`/`avgSaves`/
`avgWatchTime` while `calculateInterestScore` destructures the keys
`likes`/`comments`/`shares`/`saves`/`watchTime`; every destructured field
therefore falls back to its default 0, which is what the application below
reflects. -/
def processMetrics (records : List Record) (opts : Options) : AnalysisData :=
  let tr := opts.timeRange.getD "30d"
  let totalPosts := records.length
  let n : ℚ := totalPosts
  let totalLikes := sumLikes records
  let totalComments := sumComments records
  let totalShares := sumShares records
  let totalSaves := sumSaves records
  let totalWatchTime := sumWatchTime records
  let sentimentMetrics := calculateSentimentMetrics records
  let interestScore := calculateInterestScore 0 0 0 0 0
  let stressScore :=
    calculateStressScore sentimentMetrics.avgSentiment sentimentMetrics.negative
      (calculatePostFrequency records tr opts.startDate opts.endDate) []
  { engagement :=
      { totalPosts := totalPosts
        totalLikes := totalLikes, totalComments := totalComments
        totalShares := totalShares, totalSaves := totalSaves
        totalWatchTime := totalWatchTime
        avgLikes := if 0 < totalPosts then totalLikes / n else 0
        avgComments := if 0 < totalPosts then totalComments / n else 0
        avgShares := if 0 < totalPosts then totalShares / n else 0
        avgSaves := if 0 < totalPosts then totalSaves / n else 0
        avgWatchTime := if 0 < totalPosts then totalWatchTime / n else 0
        engagementRate :=
          calculateEngagementRate totalLikes totalComments totalShares totalPosts }
    sentiment := sentimentMetrics
    comparative := sentimentMetrics.avgSentiment * 5
    mentalHealth :=
      { interestScore := interestScore
        stressScore := stressScore
        moodScore := 50 + sentimentMetrics.avgSentiment * 25
        energyLevel := calculateEnergyLevel interestScore
        socialSupport := calculateSocialSupport totalComments }
    riskFactors := detectRiskFactors records
    byPlatform := generatePlatformData records }

/-- `CACHE_TTL = 5 * 60 * 1000`. -/
def CACHE_TTL : Int := 5 * 60 * 1000

/-- One entry of `analysisCache`. -/
structure CacheEntry where
  data : AnalysisData
  timestamp : Int
deriving DecidableEq

/-- The `analysisCache` map, as an association list whose most recent
binding for a key shadows older ones (`Map.get`/`Map.set`). -/
abbrev Cache := List (String × CacheEntry)

def cacheGet (c : Cache) (k : String) : Option CacheEntry :=
  (c.find? (fun e => e.1 == k)).map (fun e => e.2)

def cacheSet (c : Cache) (k : String) (v : CacheEntry) : Cache :=
  (k, v) :: c.filter (fun e => e.1 != k)

/-- `cleanupCache`: the periodic sweep drops entries older than the TTL. -/
def cleanupCache (now : Int) (c : Cache) : Cache :=
  c.filter (fun e => decide (now - e.2.timestamp ≤ CACHE_TTL))

/-- Rendering of one record for the cache key:
`${m._id || ''}:${m.timestamp || ''}` (a Date object is truthy, and the
decimal rendering of the instant is injective, which is all the properties
below use of it). -/
def recordKeyPart (m : Record) : String :=
  m.id ++ ":" ++ toString m.timestamp

/-- Rendering of an optional date for the serialized options
(`options.startDate?.toISOString()`; injective on present instants). -/
def isoOpt : Option Int → String
  | Option.none => "undefined"
  | Option.some t => toString t ++ "Z"

/-- `JSON.stringify` of the three option fields, modelled as an injective
rendering of the same three values. -/
def optionsKey (opts : Options) : String :=
  "tr=" ++ opts.timeRange.getD "undefined" ++ ";s=" ++ isoOpt opts.startDate ++
    ";e=" ++ isoOpt opts.endDate

/-- `generateCacheKey(metrics, options)` (lines 454-466): only `_id` and
`timestamp` of each record enter the key, plus the serialized options. -/
def generateCacheKey (records : List Record) (opts : Options) : String :=
  String.intercalate "|" (records.map recordKeyPart) ++ "|" ++ optionsKey opts

/-- The errors thrown by `validateMetrics`. -/
inductive VError where
  | emptyBatch
  | missingMetrics (i : Nat)
deriving DecidableEq

/-- Index of the first record whose `metrics` object is missing. -/
def findInvalid : List Record → Nat → Option Nat
  | [], _ => Option.none
  | m :: rest, i =>
    if m.metricsOpt.isNone then Option.some i else findInvalid rest (i + 1)

/-- `validateMetrics(metrics)` (lines 412-431): empty batch, then each
record must carry a `metrics` object. -/
def validateMetrics (records : List Record) : Option VError :=
  if records = [] then Option.some VError.emptyBatch
  else (findInvalid records 0).map VError.missingMetrics

/-- The value returned by `analyzeMetrics`: the analysis content plus the
`_cached` flag (`_processingTime`, a wall-clock marker, is not part of the
modelled content). -/
structure AnalysisResult where
  data : AnalysisData
  cached : Bool
deriving DecidableEq

/-- `analyzeMetrics(metrics, options)` (lines 475-512): validate, look the
key up in the cache, on a hit return the stored data flagged `_cached:true`
without touching the cache, on a miss compute, store at `now` and return
flagged `_cached:false`.  A validation error is rethrown before any cache
access. -/
def analyzeMetrics (records : List Record) (opts : Options) (now : Int)
    (cache : Cache) : Except VError AnalysisResult × Cache :=
  match validateMetrics records with
  | Option.some e => (Except.error e, cache)
  | Option.none =>
    let key := generateCacheKey records opts
    match cacheGet cache key with
    | Option.some entry => (Except.ok { data := entry.data, cached := true }, cache)
    | Option.none =>
      let d := processMetrics records opts
      (Except.ok { data := d, cached := false },
        cacheSet cache key { data := d, timestamp := now })

namespace AnalysisRoutes

/-- The route-helper `calculateInterestScore` of the unnamed routes file
(`src/unnamed/part_001`, lines 269-290): same likes/comments caps, but
shares/20, saves/10, watchTime/60, and weights 0.4/0.3/0.2/0.05/0.05. -/
def calculateInterestScore (likes comments shares saves watchTime : ℚ) : ℚ :=
  let normalizedLikes := min (likes / 100) 1
  let normalizedComments := min (comments / 10) 1
  let normalizedShares := min (shares / 20) 1
  let normalizedSaves := min (saves / 10) 1
  let normalizedWatchTime := min (watchTime / 60) 1
  let score :=
    (normalizedLikes * 0.4 + normalizedComments * 0.3 + normalizedShares * 0.2 +
      normalizedSaves * 0.05 + normalizedWatchTime * 0.05) * 100
  min (max score 0) 100

end AnalysisRoutes

/-! Concrete inputs used by the witnesses and counterexamples. -/

def sampleMetrics : Metrics :=
  { likes := 5, comments := 2, shares := 1, saves := 0, views := 10,
    watchTimeSeconds := 30, sentimentScore := Option.some 0.5 }

/-- A record whose text carries one medium-tier keyword. -/
def dupRecord : Record :=
  { id := "p1", provider := "manual", timestamp := 0,
    text := "I feel hopeless".data, metricsOpt := Option.some sampleMetrics }

/-- A second record with character-identical text but different identity. -/
def dupRecordB : Record :=
  { id := "p9", provider := "instagram", timestamp := 5,
    text := "I feel hopeless".data, metricsOpt := Option.some sampleMetrics }

/-- A record whose text carries a high-tier and a low-tier keyword. -/
def mixedRecord : Record :=
  { id := "p2", provider := "manual", timestamp := 0,
    text := "feeling suicidal and lonely".data, metricsOpt := Option.some sampleMetrics }

/-- A risky record whose text is 201 characters long. -/
def longRecord : Record :=
  { id := "p3", provider := "manual", timestamp := 0,
    text := "lonely ".data ++ List.replicate 194 'a', metricsOpt := Option.none }

def alteredMetrics : Metrics :=
  { likes := 900, comments := 40, shares := 7, saves := 3, views := 2000,
    watchTimeSeconds := 500, sentimentScore := Option.some (-0.8) }

/-- Same `id` and `timestamp` as `dupRecord`, different text and metrics. -/
def alteredRecord : Record :=
  { id := "p1", provider := "manual", timestamp := 0,
    text := "what a wonderful day".data,
    metricsOpt := Option.some alteredMetrics }

def sampleOptions : Options :=
  { timeRange := Option.some "30d", startDate := Option.none, endDate := Option.none }

/-- The overall risk level decision table exactly as the specification words
it (top-down, first match wins), for comparison with the implementation. -/
def riskLevelTable (h m l : Nat) : RiskLevel :=
  if 0 < h then RiskLevel.high
  else if 3 ≤ m then RiskLevel.mediumHigh
  else if 0 < m then RiskLevel.medium
  else if 5 ≤ l then RiskLevel.lowMedium
  else if 0 < l then RiskLevel.low
  else RiskLevel.none

/-! Helper lemmas. -/

theorem clampBounds (x : ℚ) : 0 ≤ min (max x 0) 100 ∧ min (max x 0) 100 ≤ 100 :=
  ⟨le_min (le_max_right x 0) (by norm_num), min_le_right _ _⟩

theorem riskLoop_nil (seen : List (List Char)) : riskLoop [] seen = [] := rfl

theorem riskLoop_cons (m : Record) (rest : List Record) (seen : List (List Char)) :
    riskLoop (m :: rest) seen =
      if m.text = [] ∨ m.text ∈ seen then riskLoop rest seen
      else if classifySeverity (lowerStr m.text) = Severity.none then riskLoop rest seen
      else mkFinding m :: riskLoop rest (m.text :: seen) := rfl

theorem riskLoop_mem {f : Finding} :
    ∀ (records : List Record) (seen : List (List Char)),
      f ∈ riskLoop records seen → ∃ m : Record, f = mkFinding m := by
  intro records
  induction records with
  | nil => intro seen h; simp [riskLoop_nil] at h
  | cons m rest ih =>
    intro seen h
    rw [riskLoop_cons] at h
    by_cases h1 : m.text = [] ∨ m.text ∈ seen
    · rw [if_pos h1] at h; exact ih _ h
    · rw [if_neg h1] at h
      by_cases h2 : classifySeverity (lowerStr m.text) = Severity.none
      · rw [if_pos h2] at h; exact ih _ h
      · rw [if_neg h2] at h
        rcases List.mem_cons.mp h with h3 | h3
        · exact ⟨m, h3⟩
        · exact ih _ h3

theorem riskLoop_dup (a b : Record) (hab : a.text = b.text) :
    ∀ (l : List Record) (seen : List (List Char)),
      riskLoop (l ++ [a, b]) seen = riskLoop (l ++ [a]) seen := by
  intro l
  induction l with
  | nil =>
    intro seen
    simp only [List.nil_append]
    by_cases h1 : a.text = [] ∨ a.text ∈ seen
    · have hb1 : b.text = [] ∨ b.text ∈ seen := by rw [← hab]; exact h1
      rw [riskLoop_cons, if_pos h1, riskLoop_cons, if_pos hb1,
        riskLoop_cons, if_pos h1]
    · have hb1 : ¬(b.text = [] ∨ b.text ∈ seen) := by rw [← hab]; exact h1
      by_cases h2 : classifySeverity (lowerStr a.text) = Severity.none
      · have hb2 : classifySeverity (lowerStr b.text) = Severity.none := by
          rw [← hab]; exact h2
        rw [riskLoop_cons, if_neg h1, if_pos h2, riskLoop_cons, if_neg hb1,
          if_pos hb2, riskLoop_cons, if_neg h1, if_pos h2]
      · have hbmem : b.text = [] ∨ b.text ∈ a.text :: seen := by
          rw [← hab]; exact Or.inr (List.mem_cons_self _ _)
        rw [riskLoop_cons, if_neg h1, if_neg h2, riskLoop_cons, if_pos hbmem,
          riskLoop_cons, if_neg h1, if_neg h2]
  | cons m rest ih =>
    intro seen
    simp only [List.cons_append]
    rw [riskLoop_cons, riskLoop_cons]
    by_cases h1 : m.text = [] ∨ m.text ∈ seen
    · rw [if_pos h1, if_pos h1]; exact ih seen
    · rw [if_neg h1, if_neg h1]
      by_cases h2 : classifySeverity (lowerStr m.text) = Severity.none
      · rw [if_pos h2, if_pos h2]; exact ih seen
      · rw [if_neg h2, if_neg h2, ih (m.text :: seen)]

theorem excerptOf_length_le (t : List Char) : (excerptOf t).length ≤ 203 := by
  unfold excerptOf
  by_cases h : 200 < t.length
  · rw [if_pos h]
    have hmin : Nat.min 200 t.length ≤ 200 := Nat.min_le_left _ _
    simp only [List.length_append, List.length_take]
    simp only [List.length]
    omega
  · rw [if_neg h]
    omega

/-! Claim theorems. -/

/-- C1: for every input, `calculateInterestScore` and `calculateStressScore`
return values in the closed interval [0,100]; in particular, for every batch
processed by the analysis pipeline the resulting `interestScore` and
`stressScore` lie in [0,100]. -/
theorem scores_within_bounds :
    (∀ likes comments shares saves watchTime : ℚ,
        0 ≤ calculateInterestScore likes comments shares saves watchTime ∧
        calculateInterestScore likes comments shares saves watchTime ≤ 100) ∧
    (∀ (sentiment negativePercentage postFrequency : ℚ) (posts : List (List Char)),
        0 ≤ calculateStressScore sentiment negativePercentage postFrequency posts ∧
        calculateStressScore sentiment negativePercentage postFrequency posts ≤ 100) ∧
    (∀ (records : List Record) (opts : Options),
        0 ≤ (processMetrics records opts).mentalHealth.interestScore ∧
        (processMetrics records opts).mentalHealth.interestScore ≤ 100 ∧
        0 ≤ (processMetrics records opts).mentalHealth.stressScore ∧
        (processMetrics records opts).mentalHealth.stressScore ≤ 100) := by
  refine ⟨fun likes comments shares saves watchTime => ?_,
    fun sentiment negativePercentage postFrequency posts => ?_,
    fun records opts => ?_⟩
  · exact clampBounds _
  · exact clampBounds _
  · refine ⟨(clampBounds _).1, (clampBounds _).2, (clampBounds _).1, (clampBounds _).2⟩

/-- C5: the overall `riskLevel` of every batch follows the top-down decision
table over the severity counts: high if any high finding, medium-high at three
or more medium findings, medium at any medium finding, low-medium at five or
more low findings, low at any low finding, otherwise none. -/
theorem riskLevel_matches_decision_table (records : List Record) :
    (detectRiskFactors records).riskLevel =
      riskLevelTable (detectRiskFactors records).highRisk
        (detectRiskFactors records).mediumRisk
        (detectRiskFactors records).lowRisk := by
  by_cases h : records = []
  · subst h; rfl
  · unfold detectRiskFactors
    rw [if_neg h]
    rfl

/-- C4 (amended): for every non-empty batch the aggregate `riskScore` equals
`min(100, 10*highCount + 3*mediumCount + 1*lowCount)` over the severity
counts of the findings, hence is at most 100; the empty batch takes the
early return whose result carries no `riskScore` at all. -/
theorem riskScore_formula (records : List Record) (h : records ≠ []) :
    (detectRiskFactors records).riskScore =
      Option.some (Nat.min 100 (10 * (detectRiskFactors records).highRisk +
        3 * (detectRiskFactors records).mediumRisk +
        (detectRiskFactors records).lowRisk)) ∧
    ∀ v, (detectRiskFactors records).riskScore = Option.some v → v ≤ 100 := by
  constructor
  · simp only [detectRiskFactors, if_neg h]
    congr 1
    simp only [Nat.min_def]
    split_ifs <;> omega
  · intro v hv
    simp only [detectRiskFactors, if_neg h] at hv
    have hv2 := Option.some.inj hv
    simp only [Nat.min_def] at hv2
    split_ifs at hv2 <;> omega

/-- C4 counterexample: for the empty batch the claimed equation fails — the
early-return report has no `riskScore` although the severity counts are all
zero. -/
theorem riskScore_formula_fails_on_empty_batch :
    (detectRiskFactors ([] : List Record)).riskScore ≠
      Option.some (Nat.min 100 (10 * (detectRiskFactors ([] : List Record)).highRisk +
        3 * (detectRiskFactors ([] : List Record)).mediumRisk +
        (detectRiskFactors ([] : List Record)).lowRisk)) := by
  decide

/-- C4 witness: a concrete one-record batch where the formula holds. -/
theorem riskScore_formula_witness :
    (detectRiskFactors [dupRecord]).riskScore =
      Option.some (Nat.min 100 (10 * (detectRiskFactors [dupRecord]).highRisk +
        3 * (detectRiskFactors [dupRecord]).mediumRisk +
        (detectRiskFactors [dupRecord]).lowRisk)) ∧
    ∀ v, (detectRiskFactors [dupRecord]).riskScore = Option.some v → v ≤ 100 :=
  riskScore_formula [dupRecord] (by decide)

/-- C2: a record whose text matches both a high-tier and a low-tier keyword
yields exactly one finding, of severity high, and contributes nothing to the
medium or low severity counts. -/
theorem high_tier_wins_exclusively (m : Record)
    (hh : tierHit (lowerStr m.text) highKeywords = true)
    (hl : tierHit (lowerStr m.text) lowKeywords = true) :
    (detectRiskFactors [m]).total = 1 ∧
    (detectRiskFactors [m]).highRisk = 1 ∧
    (detectRiskFactors [m]).mediumRisk = 0 ∧
    (detectRiskFactors [m]).lowRisk = 0 ∧
    (riskPosts [m]).map (fun f => f.severity) = [Severity.high] := by
  have hne : m.text ≠ [] := by
    intro hz
    rw [hz] at hh
    exact absurd hh (by decide)
  have hsev : classifySeverity (lowerStr m.text) = Severity.high := by
    simp [classifySeverity, hh]
  have hposts : riskPosts [m] = [mkFinding m] := by
    show riskLoop [m] [] = [mkFinding m]
    rw [riskLoop_cons, if_neg (by simp [hne]), if_neg (by simp [hsev]), riskLoop_nil]
  have hne2 : ([m] : List Record) ≠ [] := by simp
  refine ⟨?_, ?_, ?_, ?_, ?_⟩ <;>
    simp [detectRiskFactors, hne2, hposts, mkFinding, hsev]

/-- C2 witness: a record containing both the high keyword "suicidal" and the
low keyword "lonely" is counted once, as high severity only. -/
theorem high_tier_wins_exclusively_witness :
    (detectRiskFactors [mixedRecord]).total = 1 ∧
    (detectRiskFactors [mixedRecord]).highRisk = 1 ∧
    (detectRiskFactors [mixedRecord]).mediumRisk = 0 ∧
    (detectRiskFactors [mixedRecord]).lowRisk = 0 ∧
    (riskPosts [mixedRecord]).map (fun f => f.severity) = [Severity.high] :=
  high_tier_wins_exclusively mixedRecord (by decide) (by decide)

/-- C3: appending to a batch a second record with character-identical text
changes nothing in the risk report, and a batch consisting of the two
duplicates alone yields exactly one finding. -/
theorem duplicate_text_counted_once (l : List Record) (a b : Record)
    (hab : a.text = b.text)
    (hrisk : classifySeverity (lowerStr a.text) ≠ Severity.none)
    (hne : a.text ≠ []) :
    detectRiskFactors (l ++ [a, b]) = detectRiskFactors (l ++ [a]) ∧
    (detectRiskFactors [a, b]).total = 1 := by
  constructor
  · have hp : riskPosts (l ++ [a, b]) = riskPosts (l ++ [a]) :=
      riskLoop_dup a b hab l []
    have h1 : l ++ [a, b] ≠ [] := by simp
    have h2 : l ++ [a] ≠ [] := by simp
    unfold detectRiskFactors
    rw [if_neg h1, if_neg h2, hp]
  · have hposts : riskPosts [a, b] = [mkFinding a] := by
      show riskLoop [a, b] [] = [mkFinding a]
      rw [riskLoop_cons, if_neg (by simp [hne]), if_neg hrisk, riskLoop_cons,
        if_pos (Or.inr (by rw [← hab]; exact List.mem_cons_self _ _)), riskLoop_nil]
    have hne2 : ([a, b] : List Record) ≠ [] := by simp
    simp [detectRiskFactors, hne2, hposts]

/-- C3 witness: two records with the identical risky text "I feel hopeless"
but different ids and timestamps produce a single finding. -/
theorem duplicate_text_counted_once_witness :
    detectRiskFactors ([] ++ [dupRecord, dupRecordB]) =
      detectRiskFactors ([] ++ [dupRecord]) ∧
    (detectRiskFactors [dupRecord, dupRecordB]).total = 1 :=
  duplicate_text_counted_once [] dupRecord dupRecordB rfl (by decide) (by decide)

theorem findInvalid_isSome (records : List Record)
    (h : ∃ r ∈ records, r.metricsOpt = Option.none) :
    ∀ k : Nat, (findInvalid records k).isSome := by
  induction records with
  | nil => rcases h with ⟨r, hr, _⟩; exact absurd hr (List.not_mem_nil r)
  | cons m rest ih =>
    intro k
    unfold findInvalid
    by_cases hm : m.metricsOpt.isNone
    · rw [if_pos hm]; rfl
    · rw [if_neg hm]
      rcases h with ⟨r, hr, hnone⟩
      rcases List.mem_cons.mp hr with h1 | h1
      · subst h1; rw [hnone] at hm; exact absurd rfl hm
      · exact ih ⟨r, h1, hnone⟩ (k + 1)

/-- C6: `analyzeMetrics` fails before any computation when the batch is
empty or some record misses its `metrics` object: it returns an error, no
result, and the cache is returned untouched. -/
theorem analyzeMetrics_fail_fast (records : List Record) (opts : Options)
    (now : Int) (cache : Cache)
    (h : records = [] ∨ ∃ r ∈ records, r.metricsOpt = Option.none) :
    ∃ e, analyzeMetrics records opts now cache = (Except.error e, cache) := by
  have hval : ∃ e, validateMetrics records = Option.some e := by
    rcases h with h | h
    · exact ⟨VError.emptyBatch, by rw [h]; rfl⟩
    · by_cases hz : records = []
      · exact ⟨VError.emptyBatch, by rw [hz]; rfl⟩
      · have hsome := findInvalid_isSome records h 0
        rcases Option.isSome_iff_exists.mp hsome with ⟨i, hi⟩
        refine ⟨VError.missingMetrics i, ?_⟩
        unfold validateMetrics
        rw [if_neg hz, hi]
        rfl
  rcases hval with ⟨e, he⟩
  exact ⟨e, by simp only [analyzeMetrics, he]⟩

/-- C6 witness: the empty batch is rejected with the cache unchanged. -/
theorem analyzeMetrics_fail_fast_witness :
    ∃ e, analyzeMetrics [] sampleOptions 0 [] = (Except.error e, []) :=
  analyzeMetrics_fail_fast [] sampleOptions 0 [] (Or.inl rfl)

theorem cacheGet_set_self (c : Cache) (k : String) (v : CacheEntry) :
    cacheGet (cacheSet c k v) k = Option.some v := by
  simp [cacheGet, cacheSet]

/-- C7: with the same record batch and options and no sweep in between, a
second `analyzeMetrics` call is a cache hit: it returns the same analysis
content as the first call, flagged as cached. -/
theorem analyze_twice_cache_hit (records : List Record) (opts : Options)
    (c0 : Cache) (t0 t1 : Int)
    (hv : validateMetrics records = Option.none) :
    ∃ d b, (analyzeMetrics records opts t0 c0).1 =
        Except.ok { data := d, cached := b } ∧
      (analyzeMetrics records opts t1 (analyzeMetrics records opts t0 c0).2).1 =
        Except.ok { data := d, cached := true } := by
  cases hget : cacheGet c0 (generateCacheKey records opts) with
  | some entry =>
    refine ⟨entry.data, true, ?_, ?_⟩ <;>
      simp only [analyzeMetrics, hv, hget]
  | none =>
    refine ⟨processMetrics records opts, false, ?_, ?_⟩
    · simp only [analyzeMetrics, hv, hget]
    · simp only [analyzeMetrics, hv, hget, cacheGet_set_self]

/-- C7 witness: a valid singleton batch analysed twice on an initially empty
cache. -/
theorem analyze_twice_cache_hit_witness :
    ∃ d b, (analyzeMetrics [dupRecord] sampleOptions 0 []).1 =
        Except.ok { data := d, cached := b } ∧
      (analyzeMetrics [dupRecord] sampleOptions 7
          (analyzeMetrics [dupRecord] sampleOptions 0 []).2).1 =
        Except.ok { data := d, cached := true } :=
  analyze_twice_cache_hit [dupRecord] sampleOptions [] 0 7 (by decide)

theorem cacheKey_of_id_timestamp (b1 b2 : List Record) (opts : Options)
    (h : List.Forall₂ (fun x y : Record => x.id = y.id ∧ x.timestamp = y.timestamp) b1 b2) :
    generateCacheKey b1 opts = generateCacheKey b2 opts := by
  unfold generateCacheKey
  have hmap : b1.map recordKeyPart = b2.map recordKeyPart := by
    induction h with
    | nil => rfl
    | cons h1 _ ih => simp only [List.map_cons, ih, recordKeyPart, h1.1, h1.2]
  rw [hmap]

/-- C10: the cache key reads only each record's id and timestamp plus the
serialized options, so two batches agreeing pairwise on id and timestamp get
the same key, and within the TTL the second batch is served the cached
analysis of the first even when texts and engagement metrics differ. -/
theorem cacheKey_ignores_content (b1 b2 : List Record) (opts : Options)
    (c0 : Cache) (t0 t1 : Int)
    (h : List.Forall₂ (fun x y : Record => x.id = y.id ∧ x.timestamp = y.timestamp) b1 b2)
    (hv1 : validateMetrics b1 = Option.none)
    (hv2 : validateMetrics b2 = Option.none) :
    generateCacheKey b1 opts = generateCacheKey b2 opts ∧
    ∃ d b, (analyzeMetrics b1 opts t0 c0).1 = Except.ok { data := d, cached := b } ∧
      (analyzeMetrics b2 opts t1 (analyzeMetrics b1 opts t0 c0).2).1 =
        Except.ok { data := d, cached := true } := by
  have hkey := cacheKey_of_id_timestamp b1 b2 opts h
  refine ⟨hkey, ?_⟩
  cases hget : cacheGet c0 (generateCacheKey b1 opts) with
  | some entry =>
    refine ⟨entry.data, true, ?_, ?_⟩ <;>
      simp only [analyzeMetrics, hv1, hv2, hget, ← hkey]
  | none =>
    refine ⟨processMetrics b1 opts, false, ?_, ?_⟩
    · simp only [analyzeMetrics, hv1, hget]
    · simp only [analyzeMetrics, hv1, hv2, hget, ← hkey, cacheGet_set_self]

/-- C10 witness: `alteredRecord` shares `dupRecord`'s id and timestamp but
has different text and metrics; the second call returns the first call's
cached analysis. -/
theorem cacheKey_ignores_content_witness :
    generateCacheKey [dupRecord] sampleOptions =
      generateCacheKey [alteredRecord] sampleOptions ∧
    ∃ d b, (analyzeMetrics [dupRecord] sampleOptions 0 []).1 =
        Except.ok { data := d, cached := b } ∧
      (analyzeMetrics [alteredRecord] sampleOptions 7
          (analyzeMetrics [dupRecord] sampleOptions 0 []).2).1 =
        Except.ok { data := d, cached := true } :=
  cacheKey_ignores_content [dupRecord] [alteredRecord] sampleOptions [] 0 7
    (List.Forall₂.cons ⟨rfl, rfl⟩ List.Forall₂.nil) (by decide) (by decide)

/-- C8 (amended): at likes=200, comments=20, shares=10, saves=20,
watchTime=300 the engine's `calculateInterestScore` saturates every
normalized component at 1.0 and returns exactly 100; the route-helper
variant of the unnamed routes file does not saturate its shares component
(its cap is 20, so the component is 0.5) and returns 90. -/
theorem interest_score_saturation :
    calculateInterestScore 200 20 10 20 300 = 100 ∧
    min ((200 : ℚ) / 100) 1 = 1 ∧ min ((20 : ℚ) / 10) 1 = 1 ∧
    min ((10 : ℚ) / 5) 1 = 1 ∧ min ((20 : ℚ) / 20) 1 = 1 ∧
    min ((300 : ℚ) / 300) 1 = 1 ∧
    AnalysisRoutes.calculateInterestScore 200 20 10 20 300 = 90 := by
  refine ⟨?_, by norm_num, by norm_num, by norm_num, by norm_num, by norm_num, ?_⟩
  · norm_num [calculateInterestScore]
  · norm_num [AnalysisRoutes.calculateInterestScore]

/-- C8 counterexample: under the route-helper weighting scheme the same
input yields 90, not 100, so the score is not 100 regardless of the scheme
used. -/
theorem interest_score_not_100_under_routes_scheme :
    AnalysisRoutes.calculateInterestScore 200 20 10 20 300 = 90 ∧
    (90 : ℚ) ≠ 100 := by
  constructor
  · norm_num [AnalysisRoutes.calculateInterestScore]
  · norm_num

/-- C9 (amended): every emitted finding stores an excerpt of at most 203
characters: texts of at most 200 characters are kept unchanged, longer texts
are cut to 200 characters and get a 3-character ellipsis appended. -/
theorem excerpt_truncation (records : List Record) (i : Nat)
    (hi : i < (riskPosts records).length) :
    ((riskPosts records).get ⟨i, hi⟩).excerpt.length ≤ 203 ∧
    (∀ t : List Char, t.length ≤ 200 → excerptOf t = t) ∧
    (∀ t : List Char, 200 < t.length → excerptOf t = t.take 200 ++ "...".data) := by
  refine ⟨?_, ?_, ?_⟩
  · have hmem : (riskPosts records).get ⟨i, hi⟩ ∈ riskPosts records :=
      (riskPosts records).get_mem _ _
    rcases riskLoop_mem records [] hmem with ⟨m, hm⟩
    rw [hm]
    exact excerptOf_length_le m.text
  · intro t ht
    simp [excerptOf, not_lt.mpr ht]
  · intro t ht
    simp [excerptOf, ht]

/-- C9 witness: the finding of a concrete short-text batch respects the
bound. -/
theorem excerpt_truncation_witness :
    ((riskPosts [dupRecord]).get ⟨0, by decide⟩).excerpt.length ≤ 203 :=
  (excerpt_truncation [dupRecord] 0 (by decide)).1

set_option maxRecDepth 10000 in
/-- C9 counterexample: a 201-character risky text produces a finding whose
excerpt is 203 characters long, more than the claimed 200-character bound. -/
theorem excerpt_exceeds_200_chars :
    ((detectRiskFactors [longRecord]).examples.map (fun f => f.excerpt.length)) =
      [203] ∧ ¬(203 ≤ 200) := by
  constructor
  · decide
  · decide
